import Mathlib

/-!
Verification development for the `langchain_mcp_toolkit` services layer:
a shallow embedding of `services/server_service.py` (class `MCPServerService`)
and `services/client_service.py` (class `MCPClientService`), with theorems
about the server control surface, the execution sandbox, and the dual-mode
client dispatch core.

Python exceptions are modelled as values of `PyExc` (exception class name plus
message, matching `str(e)`); a Python call that may raise is an
`Except PyExc _`.  Calls made on the underlying collaborator objects (the
server handle, the single-endpoint session, the multi-endpoint router) are
recorded in an explicit trace so that frame conditions ("does not touch the
handle") are provable.  The collaborators' behaviour is abstracted as an
environment of oracles passed to each operation.
-/

namespace MCPToolkit

/-- A raised Python exception: the exception class name and the message
(`str(e)`). -/
structure PyExc where
  ty : String
  msg : String
  deriving DecidableEq, Repr

/-- Result of a Python call that may raise. -/
abbrev PyRes (A : Type) := Except PyExc A

/-- Keyword-argument mapping (`**kwargs` / a `dict[str, Any]` argument),
modelled as an association list with string values standing for the opaque
Python values. -/
abbrev KW := List (String × String)

/-- A `dict[str, Any]` return value. -/
abbrev Dict := List (String × String)

/-- An opaque collaborator result value. -/
abbrev Val := String

/-! ## Server side: `server_service.py` -/

/-- `safe_builtins` from `server_service.py`: the allow-listed builtin names
copied into the sandbox namespace. -/
def safe_builtins : List String :=
  ["dict", "list", "tuple", "set", "str", "int", "float", "bool",
   "None", "True", "False", "len", "Exception", "TypeError", "ValueError",
   "print", "range", "enumerate", "zip", "map", "filter", "sum", "min", "max"]

/-- The names bound in the sandbox dict built by `_compile_tool_code`:
the safe builtins plus the two helper modules `requests` and `json`. -/
def sandboxNames : List String := safe_builtins ++ ["requests", "json"]

/-- A tool `code` body as handed to `add_tool`.  `_compile_tool_code` wraps it
as `def {name}(**kwargs):\n{indent(code)}` and runs `exec` on that text.
Executing a `def` statement in Python parses the whole text and, on success,
binds a function object; the names free in the body are *not* resolved at
definition time (resolution happens only when the function is later called).
So the only datum of the body that `exec` consults is whether the wrapped text
parses: `parseError = some m` models a body on which `exec` raises
`SyntaxError` with message `m`, and `referencedNames` records the free names
the body mentions, which `exec` ignores.  E.g. the body
`return open('/etc/passwd').read()` is `parseError = none`,
`referencedNames = ["open"]`. -/
structure CodeBody where
  parseError : Option String
  referencedNames : List String
  deriving DecidableEq, Repr

/-- The function object `sandbox[name]` produced by a successful
`_compile_tool_code`: a closure that will resolve `referencedNames` against
the sandbox namespace when invoked. -/
structure ToolFunc where
  name : String
  referencedNames : List String
  deriving DecidableEq, Repr

/-- `MCPServerService._compile_tool_code`: build the sandbox namespace and
`exec` the wrapped `def`.  Fails exactly when the wrapped text fails to parse;
a parseable body compiles to the function object regardless of which names it
references. -/
def _compile_tool_code (name : String) (code_str : CodeBody) : PyRes ToolFunc :=
  match code_str.parseError with
  | some m => .error ⟨"SyntaxError", m⟩
  | none => .ok ⟨name, code_str.referencedNames⟩

/-- Resource content (`content: Any`): opaque to the service, passed through
verbatim. -/
inductive RContent where
  | str (s : String)
  | strList (l : List String)
  | dict (d : List (String × String))
  deriving DecidableEq, Repr

/-- A call performed on the underlying server handle (`self._server`). -/
inductive HandleCall where
  | hsetName (name : String)
  | hstart (host : String) (port : Nat)
  | hstop
  | haddTool (name : String) (func : ToolFunc) (description : String)
  | haddResource (name : String) (content : RContent)
  | haddPrompt (name : String) (content : String)
  deriving DecidableEq, Repr

/-- Mutable state of an `MCPServerService` instance: `_is_running`, `_host`,
`_port` (the handle object itself is abstracted by the oracle environment). -/
structure ServerState where
  is_running : Bool
  host : String
  port : Nat
  deriving DecidableEq, Repr

/-- `MCPServerService.__init__` state: not running, host `"localhost"`,
port `8000`. -/
def initServerState : ServerState := ⟨false, "localhost", 8000⟩

/-- Oracle environment abstracting the underlying server handle's behaviour:
the outcome of each primitive the service may invoke on it. -/
structure ServerEnv where
  startRes : String → Nat → PyRes Unit
  stopRes : PyRes Unit
  addToolRes : String → ToolFunc → String → PyRes Unit
  addResourceRes : String → RContent → PyRes Unit
  addPromptRes : String → String → PyRes Unit

/-- Outcome of a server-service operation: the returned string or raised
exception, the post state, and the trace of calls made on the handle. -/
abbrev ServerOut := PyRes String × ServerState × List HandleCall

/-- `MCPServerService.start(host, port)`.  If already running, return the
already-running message without touching the handle.  Otherwise assign
`_host`/`_port` first, set the handle name, invoke the handle's `start`; on
success flip `_is_running` and return the started message, on failure raise
`RuntimeError("Failed to start server: " + str(e))` — note the host/port
assignments have already happened. -/
def start (st : ServerState) (env : ServerEnv) (host : String) (port : Nat) : ServerOut :=
  if st.is_running then
    (.ok ("Server is already running: http://" ++ st.host ++ ":" ++ toString st.port), st, [])
  else
    let st1 : ServerState := { st with host := host, port := port }
    match env.startRes host port with
    | .ok _ =>
        (.ok ("Server started at http://" ++ host ++ ":" ++ toString port),
         { st1 with is_running := true },
         [.hsetName "mcp-server", .hstart host port])
    | .error e =>
        (.error ⟨"RuntimeError", "Failed to start server: " ++ e.msg⟩, st1,
         [.hsetName "mcp-server", .hstart host port])

/-- `MCPServerService.stop()`. -/
def stop (st : ServerState) (env : ServerEnv) : ServerOut :=
  if !st.is_running then
    (.ok "Server is not currently running", st, [])
  else
    match env.stopRes with
    | .ok _ => (.ok "Server stopped", { st with is_running := false }, [.hstop])
    | .error e =>
        (.error ⟨"RuntimeError", "Failed to stop server: " ++ e.msg⟩, st, [.hstop])

/-- `MCPServerService.add_tool(name, description, code, code_type)`.  Requires
running (else the soft error string); compiles the code in the sandbox and
registers the callable on the handle; any exception from compilation or
registration is wrapped as `RuntimeError("Failed to add tool: " + str(e))`. -/
def add_tool (st : ServerState) (env : ServerEnv) (name description : String)
    (code : CodeBody) : ServerOut :=
  if !st.is_running then
    (.ok "Error: Server is not currently running, please start the server first", st, [])
  else
    match _compile_tool_code name code with
    | .error e => (.error ⟨"RuntimeError", "Failed to add tool: " ++ e.msg⟩, st, [])
    | .ok tool_func =>
        match env.addToolRes name tool_func description with
        | .ok _ =>
            (.ok ("Tool '" ++ name ++ "' added to server"), st,
             [.haddTool name tool_func description])
        | .error e =>
            (.error ⟨"RuntimeError", "Failed to add tool: " ++ e.msg⟩, st,
             [.haddTool name tool_func description])

/-- `MCPServerService.add_resource(name, content, description)`. -/
def add_resource (st : ServerState) (env : ServerEnv) (name : String)
    (content : RContent) (_description : String) : ServerOut :=
  if !st.is_running then
    (.ok "Error: Server is not currently running, please start the server first", st, [])
  else
    match env.addResourceRes name content with
    | .ok _ =>
        (.ok ("Resource '" ++ name ++ "' added to server"), st, [.haddResource name content])
    | .error e =>
        (.error ⟨"RuntimeError", "Failed to add resource: " ++ e.msg⟩, st,
         [.haddResource name content])

/-- `MCPServerService.add_prompt(name, content, description)`. -/
def add_prompt (st : ServerState) (env : ServerEnv) (name : String)
    (content : String) (_description : String) : ServerOut :=
  if !st.is_running then
    (.ok "Error: Server is not currently running, please start the server first", st, [])
  else
    match env.addPromptRes name content with
    | .ok _ =>
        (.ok ("Prompt '" ++ name ++ "' added to server"), st, [.haddPrompt name content])
    | .error e =>
        (.error ⟨"RuntimeError", "Failed to add prompt: " ++ e.msg⟩, st,
         [.haddPrompt name content])

/-- A handle environment on which every primitive succeeds (used to
instantiate witnesses at concrete inputs). -/
def okServerEnv : ServerEnv :=
  { startRes := fun _ _ => .ok ()
    stopRes := .ok ()
    addToolRes := fun _ _ _ => .ok ()
    addResourceRes := fun _ _ => .ok ()
    addPromptRes := fun _ _ => .ok () }

/-- A handle environment whose `start` primitive raises
`Exception("Start failed")` (as in the repository's own start-failure test). -/
def startFailServerEnv : ServerEnv :=
  { okServerEnv with startRes := fun _ _ => .error ⟨"Exception", "Start failed"⟩ }

example :
    start initServerState okServerEnv "localhost" 8000 =
      (.ok "Server started at http://localhost:8000", ⟨true, "localhost", 8000⟩,
       [.hsetName "mcp-server", .hstart "localhost" 8000]) := rfl

example :
    (start ⟨false, "localhost", 8000⟩ startFailServerEnv "otherhost" 9000).2.1 =
      ⟨false, "otherhost", 9000⟩ := rfl

/-! ## Client side: `client_service.py` -/

/-- A sub-session resolved by the multi-endpoint router's `get_client`,
abstracted as an identifier. -/
abbrev SubClient := Nat

/-- One role-tagged message mapping of a retrieved prompt (`msg.get("role")`,
`msg.get("content")`); `none` models an absent key. -/
structure PromptMsg where
  role : Option String
  content : Option String
  deriving DecidableEq, Repr

/-- A LangChain message as assembled by the prompt-conversion code:
`HumanMessage`, `AIMessage`, `ChatMessage(role, content)`, or a
`MessagesPlaceholder(variable_name)`. -/
inductive LCMessage where
  | human (content : String)
  | ai (content : String)
  | chat (role : String) (content : String)
  | placeholder (variable_name : String)
  deriving DecidableEq, Repr

/-- The per-entry conversion loop body shared by `get_langchain_prompt_sync`
and `get_langchain_prompt_async`: role `"user"` → `HumanMessage`, role
`"assistant"` → `AIMessage`, anything else → `ChatMessage` whose role is
`msg.get("role", "system")`. -/
def convertMsg (msg : PromptMsg) : LCMessage :=
  if msg.role.getD "" = "user" then .human (msg.content.getD "")
  else if msg.role.getD "" = "assistant" then .ai (msg.content.getD "")
  else .chat (msg.role.getD "system") (msg.content.getD "")

/-- Python truthiness of an `str | None` value: `None` and `""` are falsy. -/
def strTruthy : Option String → Bool
  | none => false
  | some s => !s.isEmpty

/-- A call performed on the underlying client object (`self.client`): either
the single-endpoint session's verbs or the multi-endpoint router's verbs
(including `get_client` resolution and the resolved sub-session's verbs). -/
inductive ClientCall where
  | routerCallTool (server_name tool_name : String) (kwargs : KW)
  | sessionCallTool (tool_name : String) (kwargs : KW)
  | routerListAllTools (withPfx : Bool)
  | sessionListTools
  | getClient (server_name : String)
  | subListResources (sub : SubClient)
  | sessionListResources
  | subReadResource (sub : SubClient) (resource_name : String)
  | sessionReadResource (resource_name : String)
  | subListPrompts (sub : SubClient)
  | sessionListPrompts
  | subGetPrompt (sub : SubClient) (prompt_name : String) (arguments : KW)
  | sessionGetPrompt (prompt_name : String) (arguments : Option KW)
  deriving DecidableEq, Repr

/-- Mutable state of an `MCPClientService` instance: whether `self.client` is
non-`None` (`client_created`), `_is_connected`, `_is_multi_client`. -/
structure ClientState where
  client_created : Bool
  is_connected : Bool
  is_multi_client : Bool
  deriving DecidableEq, Repr

/-- `MCPClientService.__init__` state: no client, not connected, not multi. -/
def initClientState : ClientState := ⟨false, false, false⟩

/-- The exception `_check_connection` raises. -/
def connectionErr : PyExc := ⟨"ValueError", "Client service not connected"⟩

/-- The exception the `if self.client is None` guard raises. -/
def notCreatedErr : PyExc := ⟨"ValueError", "Client not created"⟩

/-- Oracle environment abstracting the behaviour of the underlying client
object: the single-endpoint session's verbs, the router's verbs, `get_client`
resolution (`none` models a falsy sub-session), and the resolved sub-session's
verbs. -/
structure ClientEnv where
  routerCallTool : String → String → KW → PyRes Val
  sessionCallTool : String → KW → PyRes Val
  routerListAllTools : Bool → PyRes (List Val)
  sessionListTools : PyRes (List Val)
  getClient : String → Option SubClient
  subListResources : SubClient → PyRes (List Val)
  sessionListResources : PyRes (List Val)
  subReadResource : SubClient → String → PyRes Dict
  sessionReadResource : String → PyRes Dict
  subListPrompts : SubClient → PyRes (List Val)
  sessionListPrompts : PyRes (List Val)
  subGetPrompt : SubClient → String → KW → PyRes Dict
  sessionGetPrompt : String → Option KW → PyRes Dict
  getPromptTargeted : String → List PromptMsg
  getPromptPlain : List PromptMsg
  subGetPromptMsgs : SubClient → List PromptMsg

/-- `MCPClientService.call_tool(server_name, tool_name, **kwargs)`:
`_check_connection()` first, then the `self.client is None` guard; in multi
mode forward `(server_name, tool_name, kwargs)` to the router in one call, in
single mode forward `(tool_name, **kwargs)` to the session; the underlying
result (or raised exception) is returned unchanged. -/
def call_tool (st : ClientState) (env : ClientEnv) (server_name tool_name : String)
    (kwargs : KW) : PyRes Val × List ClientCall :=
  if !st.is_connected then (.error connectionErr, [])
  else if !st.client_created then (.error notCreatedErr, [])
  else if st.is_multi_client then
    (env.routerCallTool server_name tool_name kwargs,
     [.routerCallTool server_name tool_name kwargs])
  else
    (env.sessionCallTool tool_name kwargs, [.sessionCallTool tool_name kwargs])

/-- `MCPClientService.list_tools(include_server_prefix)`. -/
def list_tools (st : ClientState) (env : ClientEnv) (withPfx : Bool) :
    PyRes (List Val) × List ClientCall :=
  if !st.is_connected then (.error connectionErr, [])
  else if !st.client_created then (.error notCreatedErr, [])
  else if st.is_multi_client then
    (env.routerListAllTools withPfx, [.routerListAllTools withPfx])
  else
    (env.sessionListTools, [.sessionListTools])

/-- `MCPClientService.list_resources(server_name)`: in multi mode resolve
`server_name` via `get_client`; a falsy sub-session yields `[]` without any
further call. -/
def list_resources (st : ClientState) (env : ClientEnv) (server_name : String) :
    PyRes (List Val) × List ClientCall :=
  if !st.is_connected then (.error connectionErr, [])
  else if !st.client_created then (.error notCreatedErr, [])
  else if st.is_multi_client then
    match env.getClient server_name with
    | some sub => (env.subListResources sub, [.getClient server_name, .subListResources sub])
    | none => (.ok [], [.getClient server_name])
  else
    (env.sessionListResources, [.sessionListResources])

/-- `MCPClientService.read_resource(resource_name, server_name)`: a falsy
sub-session in multi mode yields the empty mapping `{}`. -/
def read_resource (st : ClientState) (env : ClientEnv) (resource_name server_name : String) :
    PyRes Dict × List ClientCall :=
  if !st.is_connected then (.error connectionErr, [])
  else if !st.client_created then (.error notCreatedErr, [])
  else if st.is_multi_client then
    match env.getClient server_name with
    | some sub =>
        (env.subReadResource sub resource_name,
         [.getClient server_name, .subReadResource sub resource_name])
    | none => (.ok [], [.getClient server_name])
  else
    (env.sessionReadResource resource_name, [.sessionReadResource resource_name])

/-- `MCPClientService.list_prompts(server_name)`. -/
def list_prompts (st : ClientState) (env : ClientEnv) (server_name : String) :
    PyRes (List Val) × List ClientCall :=
  if !st.is_connected then (.error connectionErr, [])
  else if !st.client_created then (.error notCreatedErr, [])
  else if st.is_multi_client then
    match env.getClient server_name with
    | some sub => (env.subListPrompts sub, [.getClient server_name, .subListPrompts sub])
    | none => (.ok [], [.getClient server_name])
  else
    (env.sessionListPrompts, [.sessionListPrompts])

/-- `MCPClientService.get_prompt(prompt_name, arguments, server_name)`: in
multi mode the resolved sub-session gets `arguments or {}`; in single mode the
session gets `arguments` as given; a falsy sub-session yields `{}`. -/
def get_prompt (st : ClientState) (env : ClientEnv) (prompt_name : String)
    (arguments : Option KW) (server_name : String) : PyRes Dict × List ClientCall :=
  if !st.is_connected then (.error connectionErr, [])
  else if !st.client_created then (.error notCreatedErr, [])
  else if st.is_multi_client then
    match env.getClient server_name with
    | some sub =>
        (env.subGetPrompt sub prompt_name (arguments.getD []),
         [.getClient server_name, .subGetPrompt sub prompt_name (arguments.getD [])])
    | none => (.ok [], [.getClient server_name])
  else
    (env.sessionGetPrompt prompt_name arguments, [.sessionGetPrompt prompt_name arguments])

/-- `MCPClientService.get_langchain_prompt_sync(target_server,
include_messages_placeholder)`: after the two state checks, fetch the raw
prompt (`client.get_prompt(target_server)` when multi with a truthy target,
else `client.get_prompt()`), convert each entry in order with the role
mapping, and append one `MessagesPlaceholder("chat_history")` when requested.
The resulting `ChatPromptTemplate.from_messages(...)` is modelled by its
message list. -/
def get_langchain_prompt_sync (st : ClientState) (env : ClientEnv)
    (target_server : Option String) (include_messages_placeholder : Bool) :
    PyRes (List LCMessage) :=
  if !st.is_connected then .error connectionErr
  else if !st.client_created then .error notCreatedErr
  else
    let mcp_prompt :=
      if st.is_multi_client && strTruthy target_server then
        env.getPromptTargeted (target_server.getD "")
      else env.getPromptPlain
    let messages := mcp_prompt.map convertMsg
    if include_messages_placeholder then
      .ok (messages ++ [.placeholder "chat_history"])
    else .ok messages

/-- `MCPClientService.get_langchain_prompt_async(target_server,
include_messages_placeholder)`: as the sync version, except the multi-mode
fetch resolves the target through `get_client` (a falsy sub-session yields an
empty prompt). -/
def get_langchain_prompt_async (st : ClientState) (env : ClientEnv)
    (target_server : Option String) (include_messages_placeholder : Bool) :
    PyRes (List LCMessage) :=
  if !st.is_connected then .error connectionErr
  else if !st.client_created then .error notCreatedErr
  else
    let mcp_prompt :=
      if st.is_multi_client && strTruthy target_server then
        match env.getClient (target_server.getD "") with
        | some sub => env.subGetPromptMsgs sub
        | none => []
      else env.getPromptPlain
    let messages := mcp_prompt.map convertMsg
    if include_messages_placeholder then
      .ok (messages ++ [.placeholder "chat_history"])
    else .ok messages

/-! ## Client lifecycle: `create` / `connect` / `disconnect` -/

/-- Python `x or d` for an `str | None` value: `None` and `""` are falsy. -/
def strOr (x : Option String) (d : String) : String :=
  match x with
  | none => d
  | some s => if s.isEmpty then d else s

/-- Python `x or d` for a `list | None` value: `None` and `[]` are falsy. -/
def listOr (x : Option (List String)) (d : List String) : List String :=
  match x with
  | none => d
  | some l => if l.isEmpty then d else l

/-- The `StdioServerParameters(command=cmd, args=cmd_args)` built in the
stdio branch of `create`. -/
structure StdioParams where
  command : String
  args : List String
  deriving DecidableEq, Repr

/-- The `url_or_configs` argument of `create`: either a name → endpoint
configuration mapping (multi-endpoint; contents opaque to the dispatch core)
or a single URL string. -/
inductive CreateTarget where
  | configs (cfgs : List (String × String))
  | url (u : String)
  deriving DecidableEq, Repr

/-- Oracle environment for `create`: the outcome of constructing the
multi-server router, the SSE `ClientSession`, or the stdio client. -/
structure CreateEnv where
  multiRes : List (String × String) → PyRes Unit
  sseRes : String → PyRes Unit
  stdioRes : StdioParams → PyRes Unit

/-- `MCPClientService.create(url_or_configs, transport_type, command, args)`.
Rejects when already connected.  A mapping target builds the router (failure
is wrapped twice, by `_create_multi_server_client` and again by `create`); a
URL target builds an SSE session when `transport_type == "sse"`, a stdio
client with `command or "python"` and `args or [url]` when `"stdio"`, and any
other transport raises immediately.  On construction success the flags are
set; on failure the state is untouched.  The third component records the
`StdioServerParameters` constructed in the stdio branch. -/
def create (st : ClientState) (env : CreateEnv) (url_or_configs : CreateTarget)
    (transport_type : String) (command : Option String) (args : Option (List String)) :
    PyRes String × ClientState × Option StdioParams :=
  if st.is_connected then
    (.error ⟨"ValueError", "Client service already connected"⟩, st, none)
  else
    match url_or_configs with
    | .configs cfgs =>
        match env.multiRes cfgs with
        | .ok _ =>
            (.ok "Multi-server client created",
             { st with client_created := true, is_multi_client := true, is_connected := true },
             none)
        | .error e =>
            (.error ⟨"ValueError",
               "Failed to create multi-server client: Failed to create multi-server client: "
                 ++ e.msg⟩,
             st, none)
    | .url url =>
        if transport_type = "sse" then
          match env.sseRes url with
          | .ok _ =>
              (.ok ("Client created connected to " ++ url),
               { st with client_created := true, is_connected := true, is_multi_client := false },
               none)
          | .error e =>
              (.error ⟨"ValueError", "Failed to create SSE client: " ++ e.msg⟩, st, none)
        else if transport_type = "stdio" then
          let params : StdioParams := ⟨strOr command "python", listOr args [url]⟩
          match env.stdioRes params with
          | .ok _ =>
              (.ok ("Client created connected to " ++ url),
               { st with client_created := true, is_connected := true, is_multi_client := false },
               some params)
          | .error e =>
              (.error ⟨"ValueError", "Failed to create stdio client: " ++ e.msg⟩, st,
               some params)
        else
          (.error ⟨"ValueError", "Unsupported transport type: " ++ transport_type⟩, st, none)

/-- `MCPClientService.connect()`: requires a created client; the underlying
`client.connect()` outcome is `res` — only on success is `_is_connected` set. -/
def connect (st : ClientState) (res : PyRes Unit) : PyRes String × ClientState :=
  if !st.client_created then (.error notCreatedErr, st)
  else
    match res with
    | .ok _ => (.ok "Connection successful", { st with is_connected := true })
    | .error e => (.error e, st)

/-- `MCPClientService.disconnect()`: requires a created client; only on
success of the underlying `client.disconnect()` is `_is_connected` cleared. -/
def disconnect (st : ClientState) (res : PyRes Unit) : PyRes String × ClientState :=
  if !st.client_created then (.error notCreatedErr, st)
  else
    match res with
    | .ok _ => (.ok "Disconnected", { st with is_connected := false })
    | .error e => (.error e, st)

/-- One public operation on an `MCPClientService` instance together with the
collaborator outcome it observes.  The per-call dispatch operations never
assign to `self.client`, `_is_connected` or `_is_multi_client`, so they appear
as the state-identity event `dispatchEv`. -/
inductive ClientEvent where
  | createEv (env : CreateEnv) (target : CreateTarget) (transport_type : String)
      (command : Option String) (args : Option (List String))
  | connectEv (res : PyRes Unit)
  | disconnectEv (res : PyRes Unit)
  | dispatchEv

/-- State transition of one public operation. -/
def stepClient (st : ClientState) (e : ClientEvent) : ClientState :=
  match e with
  | .createEv env t tr c a => (create st env t tr c a).2.1
  | .connectEv r => (connect st r).2
  | .disconnectEv r => (disconnect st r).2
  | .dispatchEv => st

/-- The state reached from construction by a sequence of public operations. -/
def runClient (evs : List ClientEvent) : ClientState :=
  evs.foldl stepClient initClientState

/-! ## Theorems for the claims -/

/-- C7: `start` is idempotent while running: if the server is already running with stored
host `h1` and port `p1`, then `start h2 p2` returns a success string containing the
existing URL `http://h1:p1`, leaves the stored host, port and running flag unchanged, and
does not invoke the underlying handle's start primitive (empty handle trace). -/
theorem C7_start_idempotent (st : ServerState) (env : ServerEnv) (h2 : String) (p2 : Nat)
    (hrun : st.is_running = true) :
    start st env h2 p2 =
      (.ok ("Server is already running: http://" ++ st.host ++ ":" ++ toString st.port),
       st, [])
    ∧ ∃ pre, "Server is already running: http://" ++ st.host ++ ":" ++ toString st.port
        = pre ++ ("http://" ++ st.host ++ ":" ++ toString st.port) := by
  refine ⟨by simp [start, hrun], ⟨"Server is already running: ", ?_⟩⟩
  have h1 : ("Server is already running: " : String) ++ "http://"
      = "Server is already running: http://" := by decide
  rw [← String.append_assoc, ← String.append_assoc, ← String.append_assoc, h1]

/-- C7 witness: a running server at `localhost:8000`; `start "otherhost" 9000` returns the
already-running message for the existing URL and changes nothing. -/
theorem C7_witness :
    start ⟨true, "localhost", 8000⟩ okServerEnv "otherhost" 9000 =
      (.ok ("Server is already running: http://" ++ "localhost" ++ ":" ++ toString 8000),
       ⟨true, "localhost", 8000⟩, []) :=
  (C7_start_idempotent ⟨true, "localhost", 8000⟩ okServerEnv "otherhost" 9000 rfl).1

/-- C4 counterexample: from the freshly constructed state (host `"localhost"`, port
`8000`) and a handle whose start primitive raises `Exception("Start failed")`,
`start "otherhost" 9000` raises the runtime error but the resulting state has host
`"otherhost"` and port `9000` — not the values stored before the call, so the state is
not left unchanged as the claim says. -/
theorem C4_counterexample :
    (start ⟨false, "localhost", 8000⟩ startFailServerEnv "otherhost" 9000).1 =
      .error ⟨"RuntimeError", "Failed to start server: Start failed"⟩
    ∧ (start ⟨false, "localhost", 8000⟩ startFailServerEnv "otherhost" 9000).2.1 =
      ⟨false, "otherhost", 9000⟩
    ∧ (⟨false, "otherhost", 9000⟩ : ServerState) ≠ ⟨false, "localhost", 8000⟩ :=
  ⟨rfl, rfl, by decide⟩

/-- C4 (amended): if the server is not running and the handle's start primitive raises
`e`, `start host port` raises `RuntimeError("Failed to start server: " + str(e))` and the
running flag remains false, but the stored host and port are overwritten with the
arguments (the assignments precede the failing start call). -/
theorem C4_start_failure (st : ServerState) (env : ServerEnv) (host : String) (port : Nat)
    (e : PyExc) (hrun : st.is_running = false)
    (hfail : env.startRes host port = .error e) :
    start st env host port =
      (.error ⟨"RuntimeError", "Failed to start server: " ++ e.msg⟩,
       ⟨false, host, port⟩, [.hsetName "mcp-server", .hstart host port]) := by
  simp [start, hrun, hfail]

/-- C4 witness for the amended claim at a concrete failing start. -/
theorem C4_start_failure_witness :
    start ⟨false, "localhost", 8000⟩ startFailServerEnv "otherhost" 9000 =
      (.error ⟨"RuntimeError", "Failed to start server: " ++ "Start failed"⟩,
       ⟨false, "otherhost", 9000⟩, [.hsetName "mcp-server", .hstart "otherhost" 9000]) :=
  C4_start_failure ⟨false, "localhost", 8000⟩ startFailServerEnv "otherhost" 9000
    ⟨"Exception", "Start failed"⟩ rfl rfl

/-- C6: `add_resource`, `add_prompt` and `add_tool` on a stopped server return the
"not currently running" error string, perform no call on the underlying handle (empty
trace) and leave the state unchanged; on a running server whose handle call succeeds,
`add_resource` returns a confirmation string containing the resource name (and
`add_prompt` its confirmation likewise). -/
theorem C6_mutations_require_running (st : ServerState) (env : ServerEnv)
    (name description pcontent : String) (content : RContent) (code : CodeBody) :
    (st.is_running = false →
      add_resource st env name content description =
        (.ok "Error: Server is not currently running, please start the server first", st, [])
      ∧ add_prompt st env name pcontent description =
        (.ok "Error: Server is not currently running, please start the server first", st, [])
      ∧ add_tool st env name description code =
        (.ok "Error: Server is not currently running, please start the server first", st, []))
    ∧ (st.is_running = true → env.addResourceRes name content = .ok () →
        add_resource st env name content description =
          (.ok ("Resource '" ++ name ++ "' added to server"), st, [.haddResource name content])
        ∧ ∃ pre post, "Resource '" ++ name ++ "' added to server" = pre ++ name ++ post)
    ∧ (st.is_running = true → env.addPromptRes name pcontent = .ok () →
        add_prompt st env name pcontent description =
          (.ok ("Prompt '" ++ name ++ "' added to server"), st, [.haddPrompt name pcontent])) := by
  refine ⟨fun h => ?_, fun h hok => ?_, fun h hok => ?_⟩
  · exact ⟨by simp [add_resource, h], by simp [add_prompt, h], by simp [add_tool, h]⟩
  · exact ⟨by simp [add_resource, h, hok], ⟨"Resource '", "' added to server", rfl⟩⟩
  · simp [add_prompt, h, hok]

/-- C6 witness: `add_resource("cities", ["A","B"])` on a stopped server soft-fails with an
empty handle trace; the same call on a running server returns the confirmation naming
`"cities"`. -/
theorem C6_witness :
    add_resource ⟨false, "localhost", 8000⟩ okServerEnv "cities" (.strList ["A", "B"]) "" =
      (.ok "Error: Server is not currently running, please start the server first",
       ⟨false, "localhost", 8000⟩, [])
    ∧ add_resource ⟨true, "localhost", 8000⟩ okServerEnv "cities" (.strList ["A", "B"]) "" =
      (.ok ("Resource '" ++ "cities" ++ "' added to server"), ⟨true, "localhost", 8000⟩,
       [.haddResource "cities" (.strList ["A", "B"])]) :=
  ⟨((C6_mutations_require_running ⟨false, "localhost", 8000⟩ okServerEnv "cities" ""
      "" (.strList ["A", "B"]) ⟨none, []⟩).1 rfl).1,
   ((C6_mutations_require_running ⟨true, "localhost", 8000⟩ okServerEnv "cities" ""
      "" (.strList ["A", "B"]) ⟨none, []⟩).2.1 rfl rfl).1⟩

/-- C1 counterexample: the body `return open('/etc/passwd').read()` — parseable, but
referencing `open`, a name outside the sandbox allow-list — is accepted: on a running
server `add_tool` returns the success confirmation `Tool 'read_file' added to server`
instead of raising a registration error.  Python resolves the body's names only when the
registered tool is invoked, not when the wrapped `def` is executed. -/
theorem C1_counterexample :
    "open" ∉ sandboxNames
    ∧ add_tool ⟨true, "localhost", 8000⟩ okServerEnv "read_file" "read a file"
        ⟨none, ["open"]⟩ =
      (.ok ("Tool '" ++ "read_file" ++ "' added to server"), ⟨true, "localhost", 8000⟩,
       [.haddTool "read_file" ⟨"read_file", ["open"]⟩ "read a file"]) :=
  ⟨by decide, rfl⟩

/-- C1 (amended): on a running server, `add_tool` raises
`RuntimeError("Failed to add tool: ...")` exactly when the wrapped code fails to parse;
a parseable body is compiled and registered regardless of the names it references (name
resolution being deferred to invocation time), and `add_tool` returns the success
confirmation when the handle registration succeeds. -/
theorem C1_add_tool_registration (st : ServerState) (env : ServerEnv)
    (name description : String) (code : CodeBody) (hrun : st.is_running = true) :
    (∀ m, code.parseError = some m →
      add_tool st env name description code =
        (.error ⟨"RuntimeError", "Failed to add tool: " ++ m⟩, st, []))
    ∧ (code.parseError = none →
        env.addToolRes name ⟨name, code.referencedNames⟩ description = .ok () →
        add_tool st env name description code =
          (.ok ("Tool '" ++ name ++ "' added to server"), st,
           [.haddTool name ⟨name, code.referencedNames⟩ description])) := by
  refine ⟨fun m hm => ?_, fun hp hok => ?_⟩
  · simp [add_tool, _compile_tool_code, hrun, hm]
  · simp [add_tool, _compile_tool_code, hrun, hp, hok]

/-- C1 witness for the amended claim: a body that fails to parse is rejected with the
wrapped runtime error; the parseable `open`-referencing body is registered. -/
theorem C1_add_tool_registration_witness :
    add_tool ⟨true, "localhost", 8000⟩ okServerEnv "bad_tool" "broken"
        ⟨some "invalid syntax", []⟩ =
      (.error ⟨"RuntimeError", "Failed to add tool: " ++ "invalid syntax"⟩,
       ⟨true, "localhost", 8000⟩, [])
    ∧ add_tool ⟨true, "localhost", 8000⟩ okServerEnv "read_file" "read a file"
        ⟨none, ["open"]⟩ =
      (.ok ("Tool '" ++ "read_file" ++ "' added to server"), ⟨true, "localhost", 8000⟩,
       [.haddTool "read_file" ⟨"read_file", ["open"]⟩ "read a file"]) :=
  ⟨(C1_add_tool_registration ⟨true, "localhost", 8000⟩ okServerEnv "bad_tool" "broken"
      ⟨some "invalid syntax", []⟩ rfl).1 "invalid syntax" rfl,
   (C1_add_tool_registration ⟨true, "localhost", 8000⟩ okServerEnv "read_file" "read a file"
      ⟨none, ["open"]⟩ rfl).2 rfl rfl⟩

/-- A concrete client-collaborator environment used to instantiate witnesses:
`get_client` resolves only the name `"configured"`, and the router's
`call_tool` raises a `KeyError` for the tool name `"boom"`. -/
def sampleClientEnv : ClientEnv :=
  { routerCallTool := fun s t _ =>
      if t = "boom" then .error ⟨"KeyError", "unknown server"⟩
      else .ok ("router:" ++ s ++ ":" ++ t)
    sessionCallTool := fun t _ => .ok ("session:" ++ t)
    routerListAllTools := fun _ => .ok ["toolA"]
    sessionListTools := .ok ["toolA"]
    getClient := fun s => if s = "configured" then some 1 else none
    subListResources := fun _ => .ok ["res1"]
    sessionListResources := .ok ["res1"]
    subReadResource := fun _ _ => .ok [("key", "value")]
    sessionReadResource := fun _ => .ok [("key", "value")]
    subListPrompts := fun _ => .ok ["p1"]
    sessionListPrompts := .ok ["p1"]
    subGetPrompt := fun _ _ _ => .ok [("content", "hello")]
    sessionGetPrompt := fun _ _ => .ok [("content", "hello")]
    getPromptTargeted := fun _ => []
    getPromptPlain :=
      [⟨some "user", some "Hi"⟩, ⟨some "assistant", some "Hello"⟩, ⟨none, some "sys"⟩]
    subGetPromptMsgs := fun _ => [] }

/-- C2: with the state checks passed, `call_tool` in multi mode invokes the router's
`call_tool` with the three positional arguments `(server_name, tool_name, kwargs)` — the
keyword arguments as one mapping — and in single mode invokes the session's `call_tool`
with the tool name and the keyword arguments expanded (the server name is ignored); in
both modes the underlying result is returned unchanged. -/
theorem C2_call_tool_shapes (st : ClientState) (env : ClientEnv)
    (server_name tool_name : String) (kwargs : KW)
    (hconn : st.is_connected = true) (hcr : st.client_created = true) :
    (st.is_multi_client = true →
      call_tool st env server_name tool_name kwargs =
        (env.routerCallTool server_name tool_name kwargs,
         [.routerCallTool server_name tool_name kwargs]))
    ∧ (st.is_multi_client = false →
      call_tool st env server_name tool_name kwargs =
        (env.sessionCallTool tool_name kwargs, [.sessionCallTool tool_name kwargs])) := by
  constructor <;> intro hm <;> simp [call_tool, hconn, hcr, hm]

/-- C2 witness: `call_tool("serverA", "toolX", a=1)` in multi mode hits the router with
`("serverA", "toolX", {"a": "1"})`; in single mode it hits the session with
`("toolX", a="1")`. -/
theorem C2_witness :
    call_tool ⟨true, true, true⟩ sampleClientEnv "serverA" "toolX" [("a", "1")] =
      (sampleClientEnv.routerCallTool "serverA" "toolX" [("a", "1")],
       [.routerCallTool "serverA" "toolX" [("a", "1")]])
    ∧ call_tool ⟨true, true, false⟩ sampleClientEnv "serverA" "toolX" [("a", "1")] =
      (sampleClientEnv.sessionCallTool "toolX" [("a", "1")],
       [.sessionCallTool "toolX" [("a", "1")]]) :=
  ⟨(C2_call_tool_shapes ⟨true, true, true⟩ sampleClientEnv "serverA" "toolX" [("a", "1")]
      rfl rfl).1 rfl,
   (C2_call_tool_shapes ⟨true, true, false⟩ sampleClientEnv "serverA" "toolX" [("a", "1")]
      rfl rfl).2 rfl⟩

/-- C3: in multi mode, when `get_client` resolves `server_name` to nothing,
`list_resources` and `list_prompts` return `.ok []` and `read_resource` and `get_prompt`
return the empty mapping, none of them raising; `call_tool` never calls `get_client` (its
trace is just the router call) and returns the router's result verbatim, so an exception
the router raises propagates unwrapped. -/
theorem C3_multi_soft_miss (st : ClientState) (env : ClientEnv)
    (server_name tool_name resource_name prompt_name : String)
    (kwargs : KW) (arguments : Option KW)
    (hconn : st.is_connected = true) (hcr : st.client_created = true)
    (hmulti : st.is_multi_client = true)
    (hmiss : env.getClient server_name = none) :
    list_resources st env server_name = (.ok [], [.getClient server_name])
    ∧ list_prompts st env server_name = (.ok [], [.getClient server_name])
    ∧ read_resource st env resource_name server_name = (.ok [], [.getClient server_name])
    ∧ get_prompt st env prompt_name arguments server_name = (.ok [], [.getClient server_name])
    ∧ call_tool st env server_name tool_name kwargs =
        (env.routerCallTool server_name tool_name kwargs,
         [.routerCallTool server_name tool_name kwargs])
    ∧ (∀ e, env.routerCallTool server_name tool_name kwargs = .error e →
        (call_tool st env server_name tool_name kwargs).1 = .error e) := by
  refine ⟨?_, ?_, ?_, ?_, ?_, fun e he => ?_⟩ <;>
    simp [list_resources, list_prompts, read_resource, get_prompt, call_tool,
      hconn, hcr, hmulti, hmiss, *]

/-- C3 witness: against the unconfigured name `"ghost"`, discovery soft-fails empty while
`call_tool` propagates the router's `KeyError` unwrapped. -/
theorem C3_witness :
    list_resources ⟨true, true, true⟩ sampleClientEnv "ghost" =
      (.ok [], [.getClient "ghost"])
    ∧ (call_tool ⟨true, true, true⟩ sampleClientEnv "ghost" "boom" []).1 =
      .error ⟨"KeyError", "unknown server"⟩ :=
  ⟨(C3_multi_soft_miss ⟨true, true, true⟩ sampleClientEnv "ghost" "boom" "r" "p" [] none
      rfl rfl rfl rfl).1,
   (C3_multi_soft_miss ⟨true, true, true⟩ sampleClientEnv "ghost" "boom" "r" "p" [] none
      rfl rfl rfl rfl).2.2.2.2.2 ⟨"KeyError", "unknown server"⟩ rfl⟩

/-- C5 counterexample: on a freshly constructed service (no client created, never
connected), `call_tool` raises the connection-state error
`ValueError("Client service not connected")`, not the creation-state error
`ValueError("Client not created")` — `_check_connection()` runs before the
`self.client is None` guard, so the claimed check order is reversed. -/
theorem C5_counterexample :
    (call_tool initClientState sampleClientEnv "default" "test_tool" [("param", "value")]).1 =
      .error connectionErr
    ∧ connectionErr ≠ notCreatedErr :=
  ⟨rfl, by decide⟩

/-- C5 (amended): in every per-call dispatch operation the connected-state check is
performed first and the created-state check second, as two independent checks: when the
service is not connected the operation raises `ValueError("Client service not
connected")` (whatever the created flag), and when it is connected but no client exists
it raises `ValueError("Client not created")`.  In particular a freshly constructed
service gets the connection-state error. -/
theorem C5_check_order (st : ClientState) (env : ClientEnv)
    (server_name tool_name resource_name prompt_name : String)
    (kwargs : KW) (arguments : Option KW) (withPfx : Bool) :
    (st.is_connected = false →
      call_tool st env server_name tool_name kwargs = (.error connectionErr, [])
      ∧ list_tools st env withPfx = (.error connectionErr, [])
      ∧ list_resources st env server_name = (.error connectionErr, [])
      ∧ read_resource st env resource_name server_name = (.error connectionErr, [])
      ∧ list_prompts st env server_name = (.error connectionErr, [])
      ∧ get_prompt st env prompt_name arguments server_name = (.error connectionErr, []))
    ∧ (st.is_connected = true → st.client_created = false →
      call_tool st env server_name tool_name kwargs = (.error notCreatedErr, [])
      ∧ list_tools st env withPfx = (.error notCreatedErr, [])
      ∧ list_resources st env server_name = (.error notCreatedErr, [])
      ∧ read_resource st env resource_name server_name = (.error notCreatedErr, [])
      ∧ list_prompts st env server_name = (.error notCreatedErr, [])
      ∧ get_prompt st env prompt_name arguments server_name = (.error notCreatedErr, [])) := by
  constructor
  · intro h
    refine ⟨?_, ?_, ?_, ?_, ?_, ?_⟩ <;>
      simp [call_tool, list_tools, list_resources, read_resource, list_prompts, get_prompt, h]
  · intro h1 h2
    refine ⟨?_, ?_, ?_, ?_, ?_, ?_⟩ <;>
      simp [call_tool, list_tools, list_resources, read_resource, list_prompts, get_prompt,
        h1, h2]

/-- C5 witness: the fresh service gets the connection error from `call_tool`; a service
forced into connected-with-no-client state gets the creation error. -/
theorem C5_check_order_witness :
    call_tool initClientState sampleClientEnv "default" "test_tool" [] =
      (.error connectionErr, [])
    ∧ call_tool ⟨false, true, false⟩ sampleClientEnv "default" "test_tool" [] =
      (.error notCreatedErr, []) :=
  ⟨((C5_check_order initClientState sampleClientEnv "default" "test_tool" "r" "p" [] none
      true).1 rfl).1,
   ((C5_check_order ⟨false, true, false⟩ sampleClientEnv "default" "test_tool" "r" "p" []
      none true).2 rfl rfl).1⟩

/-- C8: with the checks passed and the underlying prompt yielding `msgs`
(single-endpoint retrieval), both the sync and the async chat-prompt-template assembly
produce exactly `msgs` converted entry-by-entry in input order, with one trailing
`MessagesPlaceholder("chat_history")` appended exactly when the option is enabled; and
the per-entry conversion maps role `"user"` to a human message, `"assistant"` to an
assistant message, any other role to a generic role-carrying message preserving the role,
and a missing role to the generic message with role `"system"`. -/
theorem C8_prompt_conversion (st : ClientState) (env : ClientEnv)
    (target_server : Option String) (ph : Bool) (msgs : List PromptMsg)
    (hconn : st.is_connected = true) (hcr : st.client_created = true)
    (hsingle : st.is_multi_client = false)
    (hplain : env.getPromptPlain = msgs) :
    get_langchain_prompt_sync st env target_server ph =
      .ok (msgs.map convertMsg ++ if ph then [LCMessage.placeholder "chat_history"] else [])
    ∧ get_langchain_prompt_async st env target_server ph =
      .ok (msgs.map convertMsg ++ if ph then [LCMessage.placeholder "chat_history"] else [])
    ∧ (∀ m : PromptMsg, m.role = some "user" → convertMsg m = .human (m.content.getD ""))
    ∧ (∀ m : PromptMsg, m.role = some "assistant" → convertMsg m = .ai (m.content.getD ""))
    ∧ (∀ (m : PromptMsg) (r : String), m.role = some r → r ≠ "user" → r ≠ "assistant" →
        convertMsg m = .chat r (m.content.getD ""))
    ∧ (∀ m : PromptMsg, m.role = none → convertMsg m = .chat "system" (m.content.getD "")) := by
  refine ⟨?_, ?_, fun m hm => ?_, fun m hm => ?_, fun m r hm hu ha => ?_, fun m hm => ?_⟩
  · cases ph <;> simp [get_langchain_prompt_sync, hconn, hcr, hsingle, hplain]
  · cases ph <;> simp [get_langchain_prompt_async, hconn, hcr, hsingle, hplain]
  · simp [convertMsg, hm]
  · simp [convertMsg, hm]
  · simp [convertMsg, hm, hu, ha]
  · simp [convertMsg, hm]

/-- C8 witness: a prompt `[user "Hi", assistant "Hello", roleless "sys"]` converts to
`[Human "Hi", AI "Hello", Chat system "sys"]` plus the trailing history placeholder. -/
theorem C8_prompt_conversion_witness :
    get_langchain_prompt_sync ⟨true, true, false⟩ sampleClientEnv none true =
      .ok [.human "Hi", .ai "Hello", .chat "system" "sys", .placeholder "chat_history"] := by
  have h := (C8_prompt_conversion ⟨true, true, false⟩ sampleClientEnv none true
      sampleClientEnv.getPromptPlain rfl rfl rfl rfl).1
  rw [h]; rfl

/-- Helper for the reachability invariant: `create` either leaves the state unchanged or
produces a state with `client_created = true`. -/
theorem create_post_state (st : ClientState) (env : CreateEnv) (t : CreateTarget)
    (tr : String) (c : Option String) (a : Option (List String)) :
    (create st env t tr c a).2.1 = st ∨ (create st env t tr c a).2.1.client_created = true := by
  simp only [create]
  split
  · exact Or.inl rfl
  · split
    · split
      · exact Or.inr rfl
      · exact Or.inl rfl
    · split
      · split
        · exact Or.inr rfl
        · exact Or.inl rfl
      · split
        · split
          · exact Or.inr rfl
          · exact Or.inl rfl
        · exact Or.inl rfl

/-- Helper: `connect` either leaves the state unchanged or, with the creation guard
passed, only sets the connected flag. -/
theorem connect_post_state (st : ClientState) (r : PyRes Unit) :
    (connect st r).2 = st ∨
      (st.client_created = true ∧ (connect st r).2 = { st with is_connected := true }) := by
  unfold connect
  split
  · exact Or.inl rfl
  · next h =>
      cases r with
      | ok u => exact Or.inr ⟨by simpa using h, rfl⟩
      | error e => exact Or.inl rfl

/-- Helper: `disconnect` either leaves the state unchanged or clears the connected flag. -/
theorem disconnect_post_state (st : ClientState) (r : PyRes Unit) :
    (disconnect st r).2 = st ∨ (disconnect st r).2 = { st with is_connected := false } := by
  unfold disconnect
  split
  · exact Or.inl rfl
  · cases r with
    | ok u => exact Or.inr rfl
    | error e => exact Or.inl rfl

/-- Helper: every public operation preserves "connected implies created". -/
theorem stepClient_preserves (st : ClientState) (e : ClientEvent)
    (h : st.is_connected = true → st.client_created = true) :
    (stepClient st e).is_connected = true → (stepClient st e).client_created = true := by
  cases e with
  | createEv env t tr c a =>
      rcases create_post_state st env t tr c a with heq | hcr
      · simp only [stepClient, heq]; exact h
      · simp only [stepClient]; exact fun _ => hcr
  | connectEv r =>
      rcases connect_post_state st r with heq | ⟨hcr, heq⟩
      · simp only [stepClient, heq]; exact h
      · simp only [stepClient, heq]; exact fun _ => hcr
  | disconnectEv r =>
      rcases disconnect_post_state st r with heq | heq
      · simp only [stepClient, heq]; exact h
      · simp only [stepClient, heq]; intro hx; simp at hx
  | dispatchEv => exact h

/-- Helper: the invariant holds in every reachable state. -/
theorem runClient_inv (evs : List ClientEvent) :
    (runClient evs).is_connected = true → (runClient evs).client_created = true := by
  suffices hgen : ∀ st : ClientState, (st.is_connected = true → st.client_created = true) →
      ((evs.foldl stepClient st).is_connected = true →
        (evs.foldl stepClient st).client_created = true) by
    exact hgen initClientState (by simp [initClientState])
  induction evs with
  | nil => exact fun st h => h
  | cons e rest ih => exact fun st h => ih (stepClient st e) (stepClient_preserves st e h)

/-- C9: in every state reachable from construction by the public operations (`create`,
`connect`, `disconnect`, and the dispatch operations, which never assign the state), the
connected flag implies the client handle exists; consequently no dispatch operation ever
takes the `Client not created` branch that follows a passed connection check — its output
is never that branch's output, the pair of `ValueError("Client not created")` and an empty
collaborator trace. -/
theorem C9_connected_implies_created (evs : List ClientEvent) (env : ClientEnv)
    (server_name tool_name resource_name prompt_name : String) (kwargs : KW)
    (arguments : Option KW) (withPfx : Bool) :
    ((runClient evs).is_connected = true → (runClient evs).client_created = true)
    ∧ call_tool (runClient evs) env server_name tool_name kwargs ≠ (.error notCreatedErr, [])
    ∧ list_tools (runClient evs) env withPfx ≠ (.error notCreatedErr, [])
    ∧ list_resources (runClient evs) env server_name ≠ (.error notCreatedErr, [])
    ∧ read_resource (runClient evs) env resource_name server_name ≠ (.error notCreatedErr, [])
    ∧ list_prompts (runClient evs) env server_name ≠ (.error notCreatedErr, [])
    ∧ get_prompt (runClient evs) env prompt_name arguments server_name ≠
        (.error notCreatedErr, []) := by
  have hinv := runClient_inv evs
  refine ⟨hinv, ?_, ?_, ?_, ?_, ?_, ?_⟩ <;> intro hbad <;>
    by_cases hc : (runClient evs).is_connected = true
  · have hcr := hinv hc
    cases hm : (runClient evs).is_multi_client <;>
      simp [call_tool, hc, hcr, hm, notCreatedErr] at hbad
  · simp only [Bool.not_eq_true] at hc
    simp [call_tool, hc, connectionErr, notCreatedErr] at hbad
  · have hcr := hinv hc
    cases hm : (runClient evs).is_multi_client <;>
      simp [list_tools, hc, hcr, hm, notCreatedErr] at hbad
  · simp only [Bool.not_eq_true] at hc
    simp [list_tools, hc, connectionErr, notCreatedErr] at hbad
  · have hcr := hinv hc
    cases hm : (runClient evs).is_multi_client
    · simp [list_resources, hc, hcr, hm, notCreatedErr] at hbad
    · cases hg : env.getClient server_name <;>
        simp [list_resources, hc, hcr, hm, hg, notCreatedErr] at hbad
  · simp only [Bool.not_eq_true] at hc
    simp [list_resources, hc, connectionErr, notCreatedErr] at hbad
  · have hcr := hinv hc
    cases hm : (runClient evs).is_multi_client
    · simp [read_resource, hc, hcr, hm, notCreatedErr] at hbad
    · cases hg : env.getClient server_name <;>
        simp [read_resource, hc, hcr, hm, hg, notCreatedErr] at hbad
  · simp only [Bool.not_eq_true] at hc
    simp [read_resource, hc, connectionErr, notCreatedErr] at hbad
  · have hcr := hinv hc
    cases hm : (runClient evs).is_multi_client
    · simp [list_prompts, hc, hcr, hm, notCreatedErr] at hbad
    · cases hg : env.getClient server_name <;>
        simp [list_prompts, hc, hcr, hm, hg, notCreatedErr] at hbad
  · simp only [Bool.not_eq_true] at hc
    simp [list_prompts, hc, connectionErr, notCreatedErr] at hbad
  · have hcr := hinv hc
    cases hm : (runClient evs).is_multi_client
    · simp [get_prompt, hc, hcr, hm, notCreatedErr] at hbad
    · cases hg : env.getClient server_name <;>
        simp [get_prompt, hc, hcr, hm, hg, notCreatedErr] at hbad
  · simp only [Bool.not_eq_true] at hc
    simp [get_prompt, hc, connectionErr, notCreatedErr] at hbad

/-- A `create` environment on which every construction succeeds. -/
def okCreateEnv : CreateEnv :=
  { multiRes := fun _ => .ok ()
    sseRes := fun _ => .ok ()
    stdioRes := fun _ => .ok () }

/-- C9 witness: after one successful SSE `create` the reachable state has a created
client (discharging the invariant's hypothesis), and on the freshly constructed state
`call_tool` does not produce the `Client not created` branch output. -/
theorem C9_witness :
    (runClient [.createEv okCreateEnv (.url "http://localhost:8000") "sse" none none]
      ).client_created = true
    ∧ call_tool (runClient []) sampleClientEnv "default" "test_tool" [] ≠
        (.error notCreatedErr, []) :=
  ⟨(C9_connected_implies_created
      [.createEv okCreateEnv (.url "http://localhost:8000") "sse" none none]
      sampleClientEnv "default" "test_tool" "r" "p" [] none true).1 rfl,
   (C9_connected_implies_created [] sampleClientEnv "default" "test_tool" "r" "p" []
      none true).2.1⟩

/-- C10: in the stdio branch of `create` with a single URL target, an explicitly passed
empty argument list is indistinguishable from passing none (both default the spawned
arguments to `[url]`), and an empty command string is indistinguishable from none (both
default the command to `"python"`); with both defaulted the constructed
`StdioServerParameters` are exactly `command = "python"`, `args = [url]`. -/
theorem C10_stdio_defaults (st : ClientState) (env : CreateEnv) (url : String)
    (command : Option String) (args : Option (List String))
    (h : st.is_connected = false) :
    create st env (.url url) "stdio" command (some []) =
      create st env (.url url) "stdio" command none
    ∧ create st env (.url url) "stdio" (some "") args =
      create st env (.url url) "stdio" none args
    ∧ (create st env (.url url) "stdio" none none).2.2 =
        some ⟨"python", [url]⟩ := by
  refine ⟨?_, ?_, ?_⟩
  · have hargs : listOr (some []) [url] = listOr none [url] := rfl
    simp [create, h, hargs]
  · have hcmd : strOr (some "") "python" = strOr none "python" := rfl
    simp [create, h, hcmd]
  · simp only [create, h, Bool.false_eq_true, if_false]
    cases hs : env.stdioRes ⟨strOr none "python", listOr none [url]⟩ <;>
      simp [hs, strOr, listOr]

/-- C10 witness: with both `command` and `args` omitted on a fresh service, the stdio
parameters are `("python", [url])`. -/
theorem C10_witness :
    (create initClientState okCreateEnv (.url "http://localhost:8000") "stdio" none none
      ).2.2 = some ⟨"python", ["http://localhost:8000"]⟩ :=
  (C10_stdio_defaults initClientState okCreateEnv "http://localhost:8000" none none
    rfl).2.2

end MCPToolkit
